import Mathlib

/-!
Shallow embedding of `src/main.py`: a pipeline that loads a question
specification from YAML, queries a text-generation backend once per question,
and substitutes the answers into a markdown template, optionally rendering a
PDF.

Modelling conventions:
* Files are modelled by a partial map `FS` from path to text content; text is
  modelled at the character level (`String` / `List Char`), assuming the usual
  posix `\n` line terminator.
* External collaborators (YAML parser `safe_load`, the langchain/Ollama chain,
  the `markdown_pdf` engine) are parameters: `parse`, `invoke`, `render`.
  The arguments the code passes to the PDF engine are recorded in a
  `RenderCall` value.
* Python exceptions become constructors of `RunErr`; a raised exception
  propagates as `Except.error`, aborting the rest of the run.
* `PATH_TO_DIR` is `dirname(abspath(__file__))`, an environment-dependent
  value, so it is a parameter `pathToDir` of the functions that use it.
-/

set_option autoImplicit false

/-- A file system: partial map from path to text content. -/
def FS : Type := String → Option String

/-- Writing a file: the map updated at one path. -/
def FS.write (fs : FS) (p c : String) : FS := fun q => if q = p then some c else fs q

/-- Python `os.path.join` on posix, for the two-component joins used in the code. -/
def pathJoin (a b : String) : String := a ++ "/" ++ b

/-- Python exceptions that the pipeline can raise, plus the backend's own
error type `ε` (whatever exception the model client raises, propagated as-is). -/
inductive RunErr (ε : Type) where
  /-- `FileNotFoundError` from `open` / `shutil.copy` on a missing path. -/
  | fileNotFound (path : String)
  /-- `AttributeError` from `questions.items()` on a non-mapping. -/
  | attributeError
  /-- `TypeError` from subscripting a non-mapping entry value. -/
  | typeError
  /-- `KeyError` from `value[key]` on a mapping without that key. -/
  | keyError (key : String)
  /-- The exception raised by `chain.invoke`, propagated unchanged. -/
  | backendError (e : ε)
  /-- `IndexError` from `lines[1]` on a list with fewer than two elements. -/
  | indexError
  /-- `ValueError` from `lines.index(x)`; its message names the sought line `x`. -/
  | valueError (sought : String)
  deriving DecidableEq

/-- The value domain of `yaml.safe_load` (an external collaborator), restricted
to the shapes the claims need: mappings and scalars (scalars collapsed to
their text). A mapping is an association list in document order. -/
inductive Yaml where
  | str (s : String)
  | map (entries : List (String × Yaml))

/-- First-match lookup in a YAML mapping (Python `dict` keys are unique, so
first match equals the dict lookup). -/
def yamlLookup : List (String × Yaml) → String → Option Yaml
  | [], _ => none
  | (k, v) :: rest, key => if k = key then some v else yamlLookup rest key

/-- Python `value[key]`: `KeyError` when the mapping lacks the key,
`TypeError` when `value` is not a mapping. -/
def pyGetItem {ε : Type} (value : Yaml) (key : String) : Except (RunErr ε) Yaml :=
  match value with
  | Yaml.map m =>
    match yamlLookup m key with
    | some v => Except.ok v
    | none => Except.error (RunErr.keyError key)
  | Yaml.str _ => Except.error RunErr.typeError

/-- `get_transcript`: reads the transcript file wholesale. -/
def get_transcript {ε : Type} (fs : FS) (path : String) : Except (RunErr ε) String :=
  match fs path with
  | some s => Except.ok s
  | none => Except.error (RunErr.fileNotFound path)

/-- `get_questions`: opens the file and returns `safe_load`'s result as-is.
The code performs no validation of the parsed shape. -/
def get_questions {ε : Type} (parse : String → Yaml) (fs : FS) (path : String) :
    Except (RunErr ε) Yaml :=
  match fs path with
  | some s => Except.ok (parse s)
  | none => Except.error (RunErr.fileNotFound path)

/-- The per-question body of `get_answer`'s loop: read `value["question"]` and
`value["ans_template"]`, call the chain, and prepend the `(field, answer)`
pair to the answers for the remaining questions. Any exception aborts the
loop, discarding the partial `result` dict. -/
def answerLoop {ε : Type} (invoke : String → Yaml → Yaml → Except ε String)
    (transcript : String) :
    List (String × Yaml) → Except (RunErr ε) (List (String × String))
  | [] => Except.ok []
  | (key, value) :: rest =>
    match pyGetItem value "question" with
    | Except.error e => Except.error e
    | Except.ok question =>
      match pyGetItem value "ans_template" with
      | Except.error e => Except.error e
      | Except.ok ansTemplate =>
        match invoke transcript question ansTemplate with
        | Except.error e => Except.error (RunErr.backendError e)
        | Except.ok ans =>
          match answerLoop invoke transcript rest with
          | Except.error e => Except.error e
          | Except.ok tail => Except.ok ((key, ans) :: tail)

/-- `get_answer`: iterates `questions.items()` in order, one blocking backend
call per question. `items()` on a non-mapping raises `AttributeError`. The
chain (prompt template piped into the Ollama client) is the abstract
`invoke`. -/
def get_answer {ε : Type} (invoke : String → Yaml → Yaml → Except ε String)
    (transcript : String) (questions : Yaml) :
    Except (RunErr ε) (List (String × String)) :=
  match questions with
  | Yaml.map entries => answerLoop invoke transcript entries
  | Yaml.str _ => Except.error RunErr.attributeError

/-- Python `f.readlines()` on text `s`: split after every newline, keeping the
terminator; a final fragment without a terminator is kept as a last line. -/
def linesAux : List Char → List Char → List (List Char)
  | [], [] => []
  | [], acc => [acc.reverse]
  | c :: rest, acc =>
    if c = '\n' then (c :: acc).reverse :: linesAux rest []
    else linesAux rest (c :: acc)

/-- `readlines` as a `String` operation. -/
def readlines (s : String) : List String :=
  (linesAux s.data []).map (fun cs => ⟨cs⟩)

/-- Python `str.replace`: replace every non-overlapping occurrence of `pat`,
scanning left to right. The fuel argument (instantiated with the string
length) only serves termination; with a nonempty pattern each step consumes at
least one character, so the fuel is never exhausted. -/
def replaceAllAux (pat rep : List Char) : Nat → List Char → List Char
  | 0, s => s
  | Nat.succ fuel, s =>
    match s with
    | [] => []
    | c :: rest =>
      if pat.isPrefixOf s then rep ++ replaceAllAux pat rep fuel (s.drop pat.length)
      else c :: replaceAllAux pat rep fuel rest

/-- `str.replace` as a `String` operation. -/
def replaceAll (s pat rep : String) : String :=
  ⟨replaceAllAux pat.data rep.data s.data.length s.data⟩

/-- The image placeholder token, `":::path_to_img:::"`. -/
def imgToken : String := ":::path_to_img:::"

/-- `path_to_logo = join("template", "img.svg")`. -/
def path_to_logo : String := pathJoin "template" "img.svg"

/-- The placeholder line sought for a field: the literal `":::<field>:::\n"`. -/
def placeholder (field : String) : String := ":::" ++ field ++ ":::" ++ "\n"

/-- `lines[1] = lines[1].replace(":::path_to_img:::", path_to_logo)`:
rewrites index 1 in place; `IndexError` when the list has fewer than two
elements. Purely positional: lines other than index 1 are not searched. -/
def imgSubst {ε : Type} (lines : List String) : Except (RunErr ε) (List String) :=
  match lines with
  | l0 :: l1 :: rest => Except.ok (l0 :: replaceAll l1 imgToken path_to_logo :: rest)
  | _ => Except.error RunErr.indexError

/-- Python `list.index`: index of the first element equal to the target, or
`ValueError` (here `none`) when absent. -/
def idxOf : List String → String → Option Nat
  | [], _ => none
  | l :: rest, target =>
    if l = target then some 0 else (idxOf rest target).map (· + 1)

/-- The `for field, ans in result.items()` loop of `get_summary_file`:
`lines[lines.index(":::<field>:::\n")] = ans`, one field at a time, in
answer-set order. A missing line raises `ValueError` naming the sought line. -/
def substFields {ε : Type} :
    List String → List (String × String) → Except (RunErr ε) (List String)
  | lines, [] => Except.ok lines
  | lines, (field, ans) :: rest =>
    match idxOf lines (placeholder field) with
    | some i => substFields (lines.set i ans) rest
    | none => Except.error (RunErr.valueError (placeholder field))

/-- `f.seek(0); f.write(text)` on a file currently holding `old`: the first
`text.length` characters are overwritten and the remainder of `old` is left in
place (the code never calls `truncate`). -/
def overwriteAt0 (old text : String) : String :=
  ⟨text.data ++ old.data.drop text.data.length⟩

/-- Python `s[:-2]`: all but the last two characters. -/
def pySliceDropLast2 (s : String) : String :=
  ⟨s.data.take (s.data.length - 2)⟩

/-- The arguments the code passes to the rendering engine's `Section`:
`Section(text, toc=False, root=PATH_TO_DIR, borders=(10, 10, -10, -10))`.
The `borders` components are recorded in the engine's positional parameter
order, `(left, top, right, bottom)` offsets added to the page rectangle. -/
structure SectionArgs where
  text : String
  toc : Bool
  root : String
  borders : Int × Int × Int × Int
  deriving DecidableEq

/-- One invocation of the PDF engine: the single section added and the output
path passed to `pdf.save`. -/
structure RenderCall where
  sect : SectionArgs
  pdfPath : String
  deriving DecidableEq

/-- `get_summary_file`: copy the template to `summary<uuid>.md` in the
program directory, rewrite line 1's image token, replace each field's
placeholder line by its answer, write the joined text back from position 0,
and (when `make_pdf`) hand the text to the PDF engine. Returns the final file
system and either the raised exception or the recorded render call (`none`
when no PDF was requested). `render` is the engine's markdown-to-PDF-bytes
function, and `uuid` the run's `uuid4()` value, both external inputs. -/
def get_summary_file {ε : Type} (render : String → String) (pathToDir uuid : String)
    (fs : FS) (path : String) (result : List (String × String)) (make_pdf : Bool) :
    FS × Except (RunErr ε) (Option RenderCall) :=
  let file_name := "summary" ++ uuid ++ ".md"
  let path_to_file := pathJoin pathToDir file_name
  match fs path with
  | none => (fs, Except.error (RunErr.fileNotFound path))
  | some tmpl =>
    let fs1 := FS.write fs path_to_file tmpl
    match imgSubst (readlines tmpl) with
    | Except.error e => (fs1, Except.error e)
    | Except.ok lines1 =>
      match substFields lines1 result with
      | Except.error e => (fs1, Except.error e)
      | Except.ok lines2 =>
        let text := String.join lines2
        let fs2 := FS.write fs1 path_to_file (overwriteAt0 tmpl text)
        if make_pdf then
          let path_to_pdf := pySliceDropLast2 path_to_file ++ "pdf"
          let call : RenderCall :=
            { sect := { text := text, toc := false, root := pathToDir,
                        borders := (10, 10, -10, -10) },
              pdfPath := path_to_pdf }
          (FS.write fs2 path_to_pdf (render text), Except.ok (some call))
        else (fs2, Except.ok none)

/-- The source's `main` (Lean reserves that name for executables): fixed paths
relative to the program directory, then transcript → questions → answers →
summary file (with PDF). Any exception short-circuits the remaining stages. -/
def mainRun {ε : Type} (invoke : String → Yaml → Yaml → Except ε String)
    (render : String → String) (parse : String → Yaml)
    (pathToDir uuid : String) (fs : FS) :
    FS × Except (RunErr ε) (Option RenderCall) :=
  let path_to_transcript := pathJoin pathToDir "transcript.md"
  let path_to_template := pathJoin pathToDir (pathJoin "template" "template.md")
  let path_to_questions := pathJoin pathToDir (pathJoin "template" "questions.yaml")
  match get_transcript (ε := ε) fs path_to_transcript with
  | Except.error e => (fs, Except.error e)
  | Except.ok transcript =>
    match get_questions (ε := ε) parse fs path_to_questions with
    | Except.error e => (fs, Except.error e)
    | Except.ok questions =>
      match get_answer invoke transcript questions with
      | Except.error e => (fs, Except.error e)
      | Except.ok result =>
        get_summary_file render pathToDir uuid fs path_to_template result true

example : readlines "a\nbc\nd" = ["a\n", "bc\n", "d"] := by decide
example : readlines "x\n" = ["x\n"] := by decide
example : replaceAll "a:::path_to_img:::b:::path_to_img:::" imgToken "Z" = "aZbZ" := by
  decide
example :
    replaceAll "::::::path_to_img::::::\n" imgToken path_to_logo
      = placeholder "template/img.svg" := by decide
example : idxOf ["a", "b", "b"] "b" = some 1 := by decide
example : pySliceDropLast2 "d/summaryu.md" ++ "pdf" = "d/summaryu.pdf" := by decide
example : overwriteAt0 "0123456789" "ab" = "ab23456789" := by decide

/-! ### Helper lemmas on lists -/

theorem lt_of_getElem?_some {α : Type} (a : α) :
    ∀ (l : List α) (i : Nat), l[i]? = some a → i < l.length
  | [], i, h => by simp at h
  | _ :: _, 0, _ => by simp
  | _ :: xs, i + 1, h => by
    simpa [Nat.succ_lt_succ_iff] using lt_of_getElem?_some a xs i (by simpa using h)

theorem getElem?_set_self {α : Type} (a : α) :
    ∀ (l : List α) (i : Nat), i < l.length → (l.set i a)[i]? = some a
  | [], i, h => absurd h (by simp)
  | _ :: _, 0, _ => by simp
  | _ :: xs, i + 1, h => by
    simpa using getElem?_set_self a xs i (by simpa using h)

theorem getElem?_set_of_ne {α : Type} (a : α) :
    ∀ (l : List α) (i j : Nat), j ≠ i → (l.set i a)[j]? = l[j]?
  | [], _, _, _ => by simp
  | _ :: _, 0, 0, h => absurd rfl h
  | _ :: xs, 0, j + 1, _ => by simp [List.set]
  | _ :: xs, i + 1, 0, _ => by simp [List.set]
  | x :: xs, i + 1, j + 1, h => by
    simpa using getElem?_set_of_ne a xs i j (fun hh => h (congrArg Nat.succ hh))

theorem idxOf_spec :
    ∀ (l : List String) (t : String) (i : Nat), idxOf l t = some i →
      l[i]? = some t ∧ ∀ j, j < i → l[j]? ≠ some t := by
  intro l
  induction l with
  | nil => intro t i h; simp [idxOf] at h
  | cons x rest ih =>
    intro t i h
    by_cases hx : x = t
    · simp only [idxOf, if_pos hx, Option.some.injEq] at h
      subst h
      exact ⟨by simpa using hx, fun j hj => absurd hj (Nat.not_lt_zero j)⟩
    · simp only [idxOf, if_neg hx] at h
      obtain ⟨i0, h0, rfl⟩ := Option.map_eq_some'.mp h
      obtain ⟨hg, hfirst⟩ := ih t i0 h0
      refine ⟨by simpa using hg, ?_⟩
      intro j hj
      match j with
      | 0 => simpa using hx
      | j0 + 1 =>
        simpa using hfirst j0 (Nat.lt_of_succ_lt_succ hj)

theorem idxOf_none_not_mem :
    ∀ (l : List String) (t : String), idxOf l t = none → t ∉ l := by
  intro l
  induction l with
  | nil => intro t _ hm; simp at hm
  | cons x rest ih =>
    intro t h hm
    by_cases hx : x = t
    · simp [idxOf, if_pos hx] at h
    · simp only [idxOf, if_neg hx, Option.map_eq_none'] at h
      rcases List.mem_cons.mp hm with hh | hh
      · exact hx hh.symm
      · exact ih t h hh

theorem idxOf_some_mem {l : List String} {t : String} {i : Nat}
    (h : idxOf l t = some i) : t ∈ l :=
  List.getElem?_mem (idxOf_spec l t i h).1

/-! ### C1 and C2 -/

theorem answerLoop_keys {ε : Type} (invoke : String → Yaml → Yaml → Except ε String)
    (transcript : String) :
    ∀ (entries : List (String × Yaml)) (result : List (String × String)),
      answerLoop invoke transcript entries = Except.ok result →
      result.map Prod.fst = entries.map Prod.fst := by
  intro entries
  induction entries with
  | nil =>
    intro result h
    simp only [answerLoop, Except.ok.injEq] at h
    simp [← h]
  | cons kv rest ih =>
    obtain ⟨key, value⟩ := kv
    intro result h
    simp only [answerLoop] at h
    split at h
    · simp at h
    · split at h
      · simp at h
      · split at h
        · simp at h
        · split at h
          · simp at h
          · rename_i tail hrec
            simp only [Except.ok.injEq] at h
            subst h
            simpa using ih tail hrec

/-- C1: whenever `get_answer` returns an answer set for a question mapping,
the answer list has exactly the keys of the question mapping, in the same
iteration order, one answer per key; in particular, duplicate-free question
keys give a duplicate-free answer set (no key processed more than once). -/
theorem get_answer_same_keys {ε : Type} (invoke : String → Yaml → Yaml → Except ε String)
    (transcript : String) (entries : List (String × Yaml))
    (result : List (String × String))
    (h : get_answer invoke transcript (Yaml.map entries) = Except.ok result) :
    result.map Prod.fst = entries.map Prod.fst
    ∧ ((entries.map Prod.fst).Nodup → (result.map Prod.fst).Nodup) := by
  have hk := answerLoop_keys invoke transcript entries result h
  exact ⟨hk, fun hn => hk ▸ hn⟩

/-- One question entry with both required members, for concrete runs. -/
def entry0 : Yaml :=
  Yaml.map [("question", Yaml.str "When did the call occur?"),
            ("ans_template", Yaml.str "DD.MM.YYYY")]

/-- A stub backend returning a fixed answer. -/
def invoke0 : String → Yaml → Yaml → Except Unit String :=
  fun _ _ _ => Except.ok "03.04.2024"

theorem get_answer_same_keys_witness :
    ([("date", "03.04.2024")] : List (String × String)).map Prod.fst
        = [("date", entry0)].map Prod.fst
    ∧ (([("date", entry0)].map Prod.fst).Nodup →
        (([("date", "03.04.2024")] : List (String × String)).map Prod.fst).Nodup) :=
  get_answer_same_keys invoke0 "transcript text" [("date", entry0)]
    [("date", "03.04.2024")] rfl

/-- C2: one step of the per-field replacement loop of `get_summary_file`.
When line `i` is the first line equal to the literal `":::<field>:::\n"`, the
loop replaces exactly that line by the answer text verbatim (no terminator
re-inserted, no escaping) and every other line is unchanged by that
substitution; the loop then continues with the remaining pairs on the updated
lines. -/
theorem substFields_step {ε : Type} (lines : List String) (field ans : String)
    (rest : List (String × String)) (i : Nat)
    (h : idxOf lines (placeholder field) = some i) :
    substFields (ε := ε) lines ((field, ans) :: rest)
        = substFields (lines.set i ans) rest
    ∧ lines[i]? = some (placeholder field)
    ∧ (∀ j, j < i → lines[j]? ≠ some (placeholder field))
    ∧ (lines.set i ans)[i]? = some ans
    ∧ (∀ j, j ≠ i → (lines.set i ans)[j]? = lines[j]?) := by
  obtain ⟨h1, h2⟩ := idxOf_spec lines (placeholder field) i h
  refine ⟨by simp [substFields, h], h1, h2, ?_, fun j hj => getElem?_set_of_ne ans lines i j hj⟩
  exact getElem?_set_self ans lines i (lt_of_getElem?_some _ lines i h1)

theorem substFields_step_witness :
    substFields (ε := Unit) ["# Title\n", ":::date:::\n"] [("date", "03.04.2024")]
        = Except.ok ["# Title\n", "03.04.2024"]
    ∧ (["# Title\n", ":::date:::\n"][0]? = some "# Title\n") := by
  have h := substFields_step (ε := Unit) ["# Title\n", ":::date:::\n"]
    "date" "03.04.2024" [] 1 (by decide)
  exact ⟨h.1.trans rfl, by decide⟩

/-! ### C3: missing placeholder -/

/-- The lines of the template copy after the image-path rewrite. -/
def imgApplied (tmpl : String) : List String :=
  match readlines tmpl with
  | l0 :: l1 :: rest => l0 :: replaceAll l1 imgToken path_to_logo :: rest
  | ls => ls

theorem imgSubst_eq_imgApplied {ε : Type} (tmpl : String)
    (h : 2 ≤ (readlines tmpl).length) :
    imgSubst (ε := ε) (readlines tmpl) = Except.ok (imgApplied tmpl) := by
  cases hl : readlines tmpl with
  | nil => rw [hl] at h; simp at h
  | cons l0 t =>
    cases t with
    | nil => rw [hl] at h; simp at h
    | cons l1 rest => simp [imgSubst, imgApplied, hl]

theorem substFields_missing {ε : Type} :
    ∀ (result : List (String × String)) (lines : List String) (f : String),
      f ∈ result.map Prod.fst → placeholder f ∉ lines →
      (∀ p ∈ result, p.2 ≠ placeholder f) →
      ∃ g, g ∈ result.map Prod.fst ∧
        substFields (ε := ε) lines result
          = Except.error (RunErr.valueError (placeholder g)) := by
  intro result
  induction result with
  | nil => intro lines f hf _ _; simp at hf
  | cons p rest ih =>
    obtain ⟨k, a⟩ := p
    intro lines f hf hnl hans
    cases hidx : idxOf lines (placeholder k) with
    | none => exact ⟨k, by simp, by simp [substFields, hidx]⟩
    | some i =>
      have hfk : f ≠ k := by
        rintro rfl
        exact hnl (idxOf_some_mem hidx)
      have hfrest : f ∈ rest.map Prod.fst := by
        rcases (by simpa using hf : f = k ∨ f ∈ rest.map Prod.fst) with h | h
        · exact absurd h hfk
        · exact h
      have hnl2 : placeholder f ∉ lines.set i a := by
        intro hm
        rcases List.mem_or_eq_of_mem_set hm with hm | hm
        · exact hnl hm
        · exact hans (k, a) (by simp) hm.symm
      have hans2 : ∀ p ∈ rest, p.2 ≠ placeholder f := fun p hp => hans p (by simp [hp])
      obtain ⟨g, hg, hsub⟩ := ih (lines.set i a) f hfrest hnl2 hans2
      exact ⟨g, by simp [hg], by simp [substFields, hidx, hsub]⟩

/-- C3 (amended): when the answer set contains a field whose placeholder line
occurs nowhere in the image-rewritten template copy — and neither an answer
string nor the image rewrite supplies the missing line — `get_summary_file`
raises the `ValueError` of `lines.index`, whose message names the full
placeholder line of a missing field, and the output file on disk is the
byte-for-byte unmodified template copy (placeholders intact, so it cannot be
mistaken for a completed document). -/
theorem get_summary_file_missing_placeholder {ε : Type} (render : String → String)
    (pathToDir uuid : String) (fs : FS) (path tmpl : String)
    (result : List (String × String)) (make_pdf : Bool) (f : String)
    (hfs : fs path = some tmpl)
    (hlen : 2 ≤ (readlines tmpl).length)
    (hf : f ∈ result.map Prod.fst)
    (hnl : placeholder f ∉ imgApplied tmpl)
    (hans : ∀ p ∈ result, p.2 ≠ placeholder f) :
    ∃ g, g ∈ result.map Prod.fst ∧
      get_summary_file (ε := ε) render pathToDir uuid fs path result make_pdf
        = (FS.write fs (pathJoin pathToDir ("summary" ++ uuid ++ ".md")) tmpl,
           Except.error (RunErr.valueError (placeholder g))) := by
  obtain ⟨g, hg, hsub⟩ := substFields_missing (ε := ε) result (imgApplied tmpl) f hf hnl hans
  refine ⟨g, hg, ?_⟩
  simp only [get_summary_file, hfs, imgSubst_eq_imgApplied (ε := ε) tmpl hlen, hsub]

/-- A template whose third line is the placeholder of field `a` only. -/
def tmplW3 : String := "T\nX\n:::a:::\n"

/-- A file system holding only that template. -/
def fsW3 : FS := fun p => if p = "tpl" then some tmplW3 else none

theorem get_summary_file_missing_placeholder_witness :
    ∃ g, g ∈ ([("a", "A1"), ("b", "B1")].map Prod.fst)
    ∧ get_summary_file (ε := Unit) id "d" "u" fsW3 "tpl" [("a", "A1"), ("b", "B1")] true
        = (FS.write fsW3 (pathJoin "d" ("summary" ++ "u" ++ ".md")) tmplW3,
           Except.error (RunErr.valueError (placeholder g))) :=
  get_summary_file_missing_placeholder (ε := Unit) id "d" "u" fsW3 "tpl" tmplW3
    [("a", "A1"), ("b", "B1")] true "b" (by decide) (by decide) (by decide)
    (by decide) (by decide)

/-- A template whose second line turns into the placeholder line of the field
named `template/img.svg` once the image token is replaced by the logo path. -/
def tmplC3 : String := "A\n::::::path_to_img::::::\n"

/-- A file system holding only that template. -/
def fsC3 : FS := fun p => if p = "tpl" then some tmplC3 else none

/-- C3 counterexample: the answer set holds field `template/img.svg`, and no
line of the template equals `":::template/img.svg:::\n"`; still assembly
succeeds (no error at all), because the image-path substitution itself
manufactures the missing placeholder line. -/
theorem get_summary_file_missing_placeholder_counterexample :
    placeholder "template/img.svg" ∉ readlines tmplC3
    ∧ (get_summary_file (ε := Unit) id "d" "u" fsC3 "tpl"
        [("template/img.svg", "ans")] false).2 = Except.ok none := by
  exact ⟨by decide, rfl⟩

/-! ### C4: in-place rewrite without truncation -/

/-- A template longer than its substituted text. -/
def tmplC4 : String := ":::long_field_name:::\nB\n"

/-- A file system holding only that template. -/
def fsC4 : FS := fun p => if p = "tpl" then some tmplC4 else none

/-- C4: evaluating the code at a failing input. The fully substituted text is
`"okB\n"` (`String.join ["ok", "B\n"]`), but the output file holds that text
followed by the stale tail of the longer template copy, because the rewrite
seeks to position 0 and writes without truncating. -/
theorem get_summary_file_stale_tail :
    (get_summary_file (ε := Unit) id "d" "u" fsC4 "tpl"
        [("long_field_name", "ok")] false).1 (pathJoin "d" ("summary" ++ "u" ++ ".md"))
      = some "okB\nong_field_name:::\nB\n"
    ∧ "okB\nong_field_name:::\nB\n" ≠ String.join ["ok", "B\n"] := by
  exact ⟨by decide, by decide⟩

/-! ### C5: the loader performs no validation -/

/-- A parsed question set whose single entry lacks `ans_template`. -/
def yamlC5 : Yaml := Yaml.map [("date", Yaml.map [("question", Yaml.str "When?")])]

/-- A file system holding the raw question file. -/
def fsC5 : FS := fun p => if p = "q.yaml" then some "raw yaml text" else none

/-- A parser (external `safe_load`) returning that malformed mapping. -/
def parseC5 : String → Yaml := fun _ => yamlC5

/-- A stub backend that always answers. -/
def invokeC5 : String → Yaml → Yaml → Except Unit String := fun _ _ _ => Except.ok "a"

/-- C5 counterexample: on an entry missing `ans_template`, the loader raises
nothing and returns the malformed mapping unchanged; the failure surfaces only
later, inside `get_answer`, as a `KeyError` — not as a loader-stage error. -/
theorem get_questions_no_validation_counterexample :
    get_questions (ε := Unit) parseC5 fsC5 "q.yaml" = Except.ok yamlC5
    ∧ get_answer invokeC5 "t" yamlC5 = Except.error (RunErr.keyError "ans_template") :=
  ⟨rfl, rfl⟩

/-- C5 (amended): `get_questions` returns the parsed document unvalidated
whenever the file is readable — its only own failure mode is an unreadable
path — and an entry that has `question` but lacks the member the code actually
requires, `ans_template`, fails only later, in `get_answer`, with
`KeyError("ans_template")`. -/
theorem get_questions_returns_unvalidated {ε : Type} (parse : String → Yaml)
    (fs : FS) (path s : String) (k : String) (m : List (String × Yaml))
    (rest : List (String × Yaml)) (invoke : String → Yaml → Yaml → Except ε String)
    (transcript : String) (q : Yaml)
    (hfs : fs path = some s)
    (hparse : parse s = Yaml.map ((k, Yaml.map m) :: rest))
    (hq : yamlLookup m "question" = some q)
    (ha : yamlLookup m "ans_template" = none) :
    get_questions (ε := ε) parse fs path = Except.ok (parse s)
    ∧ get_answer invoke transcript (parse s)
        = Except.error (RunErr.keyError "ans_template") := by
  constructor
  · simp [get_questions, hfs]
  · rw [hparse]
    simp [get_answer, answerLoop, pyGetItem, hq, ha]

theorem get_questions_returns_unvalidated_witness :
    get_questions (ε := Unit) parseC5 fsC5 "q.yaml" = Except.ok (parseC5 "raw yaml text")
    ∧ get_answer invokeC5 "t" (parseC5 "raw yaml text")
        = Except.error (RunErr.keyError "ans_template") :=
  get_questions_returns_unvalidated parseC5 fsC5 "q.yaml" "raw yaml text" "date"
    [("question", Yaml.str "When?")] [] invokeC5 "t" (Yaml.str "When?")
    (by decide) rfl rfl rfl

/-! ### C6: backend failure aborts the run, error untagged -/

/-- A well-formed question entry. -/
def entryC6 : Yaml := Yaml.map [("question", Yaml.str "q"), ("ans_template", Yaml.str "a")]

/-- A backend that always raises the same exception. -/
def invokeFail : String → Yaml → Yaml → Except String String :=
  fun _ _ _ => Except.error "backend unreachable"

/-- C6 counterexample: two runs whose failing field keys differ (`alpha` vs
`beta`) produce the very same error value — the propagated exception is the
backend's own, and carries no field key. -/
theorem get_answer_error_untagged_counterexample :
    get_answer invokeFail "t" (Yaml.map [("alpha", entryC6)])
        = Except.error (RunErr.backendError "backend unreachable")
    ∧ get_answer invokeFail "t" (Yaml.map [("beta", entryC6)])
        = Except.error (RunErr.backendError "backend unreachable") :=
  ⟨rfl, rfl⟩

/-- C6 (amended): when the backend errors during answer generation, the run
aborts with the backend's exception propagated unchanged (wrapped only as the
raised exception, with no field key attached): `mainRun` returns before
document assembly, the file system is untouched — no output document file of
any kind is created — and no render call happens. -/
theorem mainRun_aborts_on_generation_error {ε : Type}
    (invoke : String → Yaml → Yaml → Except ε String) (render : String → String)
    (parse : String → Yaml) (pathToDir uuid : String) (fs : FS)
    (transcript qtext : String) (e : RunErr ε)
    (htr : fs (pathJoin pathToDir "transcript.md") = some transcript)
    (hq : fs (pathJoin pathToDir (pathJoin "template" "questions.yaml")) = some qtext)
    (hgen : get_answer invoke transcript (parse qtext) = Except.error e) :
    mainRun invoke render parse pathToDir uuid fs = (fs, Except.error e) := by
  simp only [mainRun, get_transcript, get_questions, htr, hq, hgen]

/-- A file system holding transcript and question files only. -/
def fsC6 : FS := fun p =>
  if p = pathJoin "d" "transcript.md" then some "t"
  else if p = pathJoin "d" (pathJoin "template" "questions.yaml") then some "qs"
  else none

/-- A parser returning one well-formed entry keyed `alpha`. -/
def parseC6 : String → Yaml := fun _ => Yaml.map [("alpha", entryC6)]

theorem mainRun_aborts_on_generation_error_witness :
    mainRun invokeFail id parseC6 "d" "u" fsC6
      = (fsC6, Except.error (RunErr.backendError "backend unreachable")) :=
  mainRun_aborts_on_generation_error invokeFail id parseC6 "d" "u" fsC6 "t" "qs"
    (RunErr.backendError "backend unreachable") (by decide) (by decide) rfl

/-! ### C7: positional image substitution -/

/-- C7: on any copied document with at least two lines, the image substitution
rewrites exactly the line at index 1, replacing every occurrence of
`":::path_to_img:::"` in it (via `replaceAll`, the left-to-right
replace-all of Python `str.replace`) with the constant relative logo path
`"template/img.svg"`; it never raises whether or not the token occurs there,
and every line other than index 1 is left unchanged — the token is left in
place elsewhere, because the substitution is positional, not a search. -/
theorem imgSubst_positional {ε : Type} (l0 l1 : String) (rest : List String) :
    imgSubst (ε := ε) (l0 :: l1 :: rest)
        = Except.ok (l0 :: replaceAll l1 imgToken path_to_logo :: rest)
    ∧ path_to_logo = "template/img.svg"
    ∧ (∀ j, j ≠ 1 →
        (l0 :: replaceAll l1 imgToken path_to_logo :: rest)[j]? = (l0 :: l1 :: rest)[j]?) := by
  refine ⟨rfl, rfl, ?_⟩
  intro j hj
  match j with
  | 0 => rfl
  | 1 => exact absurd rfl hj
  | n + 2 => simp

/-! ### C8: arguments handed to the PDF engine -/

theorem take_append_three {α : Type} (A : List α) (a b c : α) :
    (A ++ [a, b, c]).take ((A ++ [a, b, c]).length - 2) = A ++ [a] := by
  have hlen : (A ++ [a, b, c]).length = A.length + 3 := by simp
  rw [hlen]
  have h2 : A.length + 3 - 2 = A.length + 1 := by omega
  rw [h2, List.take_append_eq_append_take, List.take_of_length_le (by omega)]
  have h3 : A.length + 1 - A.length = 1 := by omega
  rw [h3]
  rfl

theorem slice_md_to_pdf (a b : String) :
    pySliceDropLast2 (a ++ (b ++ ".md")) ++ "pdf" = a ++ (b ++ ".pdf") := by
  have hd : (a ++ (b ++ ".md")).data = (a.data ++ b.data) ++ ['.', 'm', 'd'] := by
    rw [String.data_append, String.data_append, ← List.append_assoc]
  apply String.ext
  rw [String.data_append]
  show (a ++ (b ++ ".md")).data.take ((a ++ (b ++ ".md")).data.length - 2) ++ "pdf".data
      = (a ++ (b ++ ".pdf")).data
  rw [hd, take_append_three, String.data_append, String.data_append,
    ← List.append_assoc, List.append_assoc]
  rfl

/-- The output path `path_to_file[:-2] + "pdf"` is the markdown path with its
`.md` suffix replaced by `.pdf`. -/
theorem summary_pdf_path (dir u : String) :
    pySliceDropLast2 (pathJoin dir ("summary" ++ u ++ ".md")) ++ "pdf"
      = pathJoin dir ("summary" ++ u ++ ".pdf") := by
  simpa only [pathJoin] using slice_md_to_pdf (dir ++ "/") ("summary" ++ u)

/-- C8 (amended): on a successful run with `make_pdf`, the engine receives one
single section carrying the final markdown text, with table-of-contents
generation disabled, the program directory as the root for relative assets,
and the fixed borders tuple `(10, 10, -10, -10)` — in the engine's positional
order `(left, top, right, bottom)`, offsets `+10, +10, -10, -10` — and the
rendered output is written at the markdown path with `.md` replaced by
`.pdf`. -/
theorem get_summary_file_render_args {ε : Type} (render : String → String)
    (pathToDir uuid : String) (fs : FS) (path tmpl : String)
    (lines1 lines2 : List String) (result : List (String × String))
    (hfs : fs path = some tmpl)
    (himg : imgSubst (ε := ε) (readlines tmpl) = Except.ok lines1)
    (hsub : substFields (ε := ε) lines1 result = Except.ok lines2) :
    (get_summary_file (ε := ε) render pathToDir uuid fs path result true).2
      = Except.ok (some
          { sect := { text := String.join lines2, toc := false, root := pathToDir,
                      borders := (10, 10, -10, -10) },
            pdfPath := pathJoin pathToDir ("summary" ++ uuid ++ ".pdf") })
    ∧ (get_summary_file (ε := ε) render pathToDir uuid fs path result true).1
        (pathJoin pathToDir ("summary" ++ uuid ++ ".pdf"))
      = some (render (String.join lines2)) := by
  have hpdf := summary_pdf_path pathToDir uuid
  constructor
  · simp [get_summary_file, hfs, himg, hsub, hpdf]
  · simp only [get_summary_file, hfs, himg, hsub, if_true, FS.write, hpdf]

/-- A complete template: title, image token line, one placeholder line. -/
def tmplC8 : String := "T\n:::path_to_img:::\n:::a:::\n"

/-- A file system holding only that template. -/
def fsC8 : FS := fun p => if p = "tpl" then some tmplC8 else none

theorem get_summary_file_render_args_witness :
    (get_summary_file (ε := Unit) id "d" "u" fsC8 "tpl" [("a", "ansA")] true).2
      = Except.ok (some
          { sect := { text := String.join ["T\n", "template/img.svg\n", "ansA"],
                      toc := false, root := "d", borders := (10, 10, -10, -10) },
            pdfPath := pathJoin "d" ("summary" ++ "u" ++ ".pdf") })
    ∧ (get_summary_file (ε := Unit) id "d" "u" fsC8 "tpl" [("a", "ansA")] true).1
        (pathJoin "d" ("summary" ++ "u" ++ ".pdf"))
      = some (id (String.join ["T\n", "template/img.svg\n", "ansA"])) :=
  get_summary_file_render_args id "d" "u" fsC8 "tpl" tmplC8
    ["T\n", "template/img.svg\n", ":::a:::\n"] ["T\n", "template/img.svg\n", "ansA"]
    [("a", "ansA")] (by decide) rfl rfl

/-- C8 counterexample: on a concrete successful run, the borders argument the
engine receives is `(10, 10, -10, -10)`; read positionally as the engine's
`(left, top, right, bottom)` this is not the claimed `(10, 10, 10, -10)`
(top 10, left 10, right 10, bottom -10), and even disregarding which label
goes to which slot, the multiset of passed components has two `10`s and two
`-10`s, not the claimed three `10`s and one `-10`. -/
theorem get_summary_file_margins_counterexample :
    ∃ call, (get_summary_file (ε := Unit) id "d" "u" fsC8 "tpl" [("a", "ansA")] true).2
        = Except.ok (some call)
    ∧ call.sect.borders = (10, 10, -10, -10)
    ∧ call.sect.borders ≠ ((10 : Int), 10, 10, -10)
    ∧ ({call.sect.borders.1, call.sect.borders.2.1, call.sect.borders.2.2.1,
        call.sect.borders.2.2.2} : Multiset Int) ≠ ({10, 10, 10, -10} : Multiset Int) := by
  refine ⟨{ sect := { text := "T\ntemplate/img.svg\nansA", toc := false, root := "d",
                      borders := (10, 10, -10, -10) },
            pdfPath := "d/summaryu.pdf" }, rfl, rfl, by decide, by decide⟩

/-! ### C9: fresh, uniquely named output; template untouched -/

/-- C9: the output names embed the run's unique token: distinct tokens give
distinct markdown output paths, the PDF path is the markdown path with `.pdf`
for `.md`, and `get_summary_file` writes nothing outside its two output
paths — every other path, in particular the template's, holds exactly its
previous content. -/
theorem get_summary_file_fresh_output {ε : Type} (render : String → String)
    (pathToDir u1 u2 : String) (fs : FS) (path : String)
    (result : List (String × String)) (make_pdf : Bool) (p : String)
    (hne : u1 ≠ u2) :
    pathJoin pathToDir ("summary" ++ u1 ++ ".md")
        ≠ pathJoin pathToDir ("summary" ++ u2 ++ ".md")
    ∧ pySliceDropLast2 (pathJoin pathToDir ("summary" ++ u1 ++ ".md")) ++ "pdf"
        = pathJoin pathToDir ("summary" ++ u1 ++ ".pdf")
    ∧ (p ≠ pathJoin pathToDir ("summary" ++ u1 ++ ".md") →
       p ≠ pathJoin pathToDir ("summary" ++ u1 ++ ".pdf") →
       (get_summary_file (ε := ε) render pathToDir u1 fs path result make_pdf).1 p = fs p) := by
  refine ⟨?_, summary_pdf_path pathToDir u1, ?_⟩
  · intro h
    apply hne
    have hd := congrArg String.data h
    simp only [pathJoin, String.data_append, List.append_assoc] at hd
    exact String.ext (List.append_cancel_right
      (List.append_cancel_left (List.append_cancel_left (List.append_cancel_left hd))))
  · intro hp1 hp2
    rw [← summary_pdf_path pathToDir u1] at hp2
    cases hfs : fs path with
    | none => simp [get_summary_file, hfs]
    | some tmpl =>
      cases himg : imgSubst (ε := ε) (readlines tmpl) with
      | error e => simp [get_summary_file, hfs, himg, FS.write, hp1]
      | ok lines1 =>
        cases hsub : substFields (ε := ε) lines1 result with
        | error e => simp [get_summary_file, hfs, himg, hsub, FS.write, hp1]
        | ok lines2 =>
          cases make_pdf with
          | false => simp [get_summary_file, hfs, himg, hsub, FS.write, hp1]
          | true => simp [get_summary_file, hfs, himg, hsub, FS.write, hp1, hp2]

theorem get_summary_file_fresh_output_witness :
    pathJoin "d" ("summary" ++ "u1" ++ ".md") ≠ pathJoin "d" ("summary" ++ "u2" ++ ".md")
    ∧ pySliceDropLast2 (pathJoin "d" ("summary" ++ "u1" ++ ".md")) ++ "pdf"
        = pathJoin "d" ("summary" ++ "u1" ++ ".pdf")
    ∧ ("tpl" ≠ pathJoin "d" ("summary" ++ "u1" ++ ".md") →
       "tpl" ≠ pathJoin "d" ("summary" ++ "u1" ++ ".pdf") →
       (get_summary_file (ε := Unit) id "d" "u1" fsC8 "tpl" [("a", "ansA")] true).1 "tpl"
         = fsC8 "tpl") :=
  get_summary_file_fresh_output id "d" "u1" "u2" fsC8 "tpl" [("a", "ansA")] true "tpl"
    (by decide)

/-! ### C10: template with fewer than two lines -/

/-- C10: when the template (and hence its copy) has fewer than two lines, the
run raises the out-of-bounds `IndexError` of `lines[1]` — whatever the answer
set, so before any per-field replacement — and the freshly copied output file
is left on disk holding exactly the unmodified template content. -/
theorem get_summary_file_short_template {ε : Type} (render : String → String)
    (pathToDir uuid : String) (fs : FS) (path tmpl : String)
    (result : List (String × String)) (make_pdf : Bool)
    (hfs : fs path = some tmpl)
    (hlen : (readlines tmpl).length < 2) :
    get_summary_file (ε := ε) render pathToDir uuid fs path result make_pdf
      = (FS.write fs (pathJoin pathToDir ("summary" ++ uuid ++ ".md")) tmpl,
         Except.error RunErr.indexError) := by
  have himg : imgSubst (ε := ε) (readlines tmpl) = Except.error RunErr.indexError := by
    cases hl : readlines tmpl with
    | nil => simp [imgSubst]
    | cons l0 t =>
      cases t with
      | nil => simp [imgSubst]
      | cons l1 rest =>
        rw [hl] at hlen
        exact absurd hlen (by simp)
  simp only [get_summary_file, hfs, himg]

/-- A one-line template. -/
def fsC10 : FS := fun p => if p = "tpl" then some "single line\n" else none

theorem get_summary_file_short_template_witness :
    get_summary_file (ε := Unit) id "d" "u" fsC10 "tpl" [("a", "x")] true
      = (FS.write fsC10 (pathJoin "d" ("summary" ++ "u" ++ ".md")) "single line\n",
         Except.error RunErr.indexError) :=
  get_summary_file_short_template id "d" "u" fsC10 "tpl" "single line\n" [("a", "x")] true
    (by decide) (by decide)
